import Mathlib

/-
  Verification development for the stan3 multi-chain sampler configuration and
  orchestration engine (src/stan3).  The C++ sources are embedded shallowly:
  pure functions become Lean functions, the effectful orchestration code
  (run_hmc_nuts.hpp) becomes explicit event-trace passing, and external
  collaborators (the stan sampler library, the filesystem, the JSON parser,
  the model) are abstracted as parameters.
-/

set_option maxRecDepth 20000
set_option autoImplicit false

namespace Stan3

/-- Substring occurrence on strings, used to state that error messages
mention particular option names.  Defined via list infix on the character
data of the strings. -/
def mentions (msg pat : String) : Prop := pat.toList <:+: msg.toList

instance (msg pat : String) : Decidable (mentions msg pat) :=
  inferInstanceAs (Decidable (pat.toList <:+: msg.toList))

/-- Model of a parsed stan::io::var_context.  `empty` is the
empty_var_context produced for an empty filename; `json d` is a context
parsed from JSON content abstracted as the payload string `d`. -/
inductive Ctx where
  | empty : Ctx
  | json (data : String) : Ctx
deriving DecidableEq

/-- Abstraction of the filesystem state seen by read_json_data:
whether `std::ifstream in(filename)` succeeds, whether the file exists,
and the outcome of the external `stan::json::json_data` parse (which throws
on malformed content, modelled by `Except.error`). -/
structure FileSystem where
  openOk : String → Bool
  fileExists : String → Bool
  parseJson : String → Except String Ctx

/-- Embedding of stan3::read_json_data (read_json_data.hpp lines 22-36):
empty filename yields the empty context; an unopenable file throws one of
two runtime errors depending on existence; otherwise the JSON parse result
(or its exception) is returned. -/
def read_json_data (fs : FileSystem) (filename : String) : Except String Ctx :=
  if filename.isEmpty then .ok Ctx.empty
  else if !(fs.openOk filename) then
    (if !(fs.fileExists filename) then
      .error ("Data file does not exist: " ++ filename)
    else
      .error ("Could not open data file (permission denied?): " ++ filename))
  else fs.parseJson filename

/-- Error message built by both validators when thin exceeds the number of
samples (arguments.hpp lines 223-225, hmc_nuts_arguments.hpp lines 303-305). -/
def thin_error_msg (thin num_samples : Int) : String :=
  ("Error: thin (") ++ toString thin ++ (") cannot exceed --samples (")
    ++ toString num_samples ++ (")")

/-- Error message for an init-file list of invalid cardinality
(arguments.hpp lines 233-235). -/
def inits_error_msg (num_chains num_files : Nat) : String :=
  ("Error: --inits must specify either 1 file (for all chains) or ")
    ++ toString num_chains ++ (" files (one per chain). ")
    ++ ("Found ") ++ toString num_files ++ (" files.")

/-- Error message for a metric-file list of invalid cardinality
(arguments.hpp lines 243-245). -/
def metric_error_msg (num_chains num_files : Nat) : String :=
  ("Error: --metric must specify either 1 file (for all chains) or ")
    ++ toString num_chains ++ (" files (one per chain). ")
    ++ ("Found ") ++ toString num_files ++ (" files.")

/-- Underlying integer values of enum class metric_t
(metric_type.hpp lines 6-10).  The tag is carried as Int because a C++
enum class may hold any value of its underlying integer type. -/
def metric_t_UNIT_E : Int := 0

/-- Underlying value of metric_t::DIAG_E. -/
def metric_t_DIAG_E : Int := 1

/-- Underlying value of metric_t::DENSE_E. -/
def metric_t_DENSE_E : Int := 2

namespace hmc_nuts_arguments

/-- Embedding of the flat stan3::hmc_nuts_args struct of
hmc_nuts_arguments.hpp lines 26-63, with the source defaults.  C++ int
fields become Int, size_t and unsigned fields become Nat, double fields
become Rat, and the metric_type enum is its underlying Int value. -/
structure HmcNutsArgs where
  algorithm : Int := 1
  num_chains : Nat := 1
  random_seed : Nat := 1
  init_radius : Rat := 2
  data_file : String := ""
  init_files : List String := []
  num_warmup : Int := 1000
  num_samples : Int := 1000
  thin : Int := 1
  refresh : Int := 100
  metric_type : Int := 1
  metric_files : List String := []
  stepsize : Rat := 1
  stepsize_jitter : Rat := 0
  max_depth : Int := 10
  output_dir : String := ""
  save_start_params : Bool := false
  save_warmup : Bool := false
  save_diagnostics : Bool := false
  save_metric : Bool := false
  delta : Rat := 8/10
  gamma : Rat := 1/20
  kappa : Rat := 3/4
  t0 : Rat := 10
  init_buffer : Nat := 75
  term_buffer : Nat := 50
  window : Nat := 25

/-- Embedding of stan3::validate_arguments
(hmc_nuts_arguments.hpp lines 301-330).  The C++ function returns a bool
and writes the error message to an out-parameter; here the pair carries
the message, empty on success.  The thin check is unconditional in this
validator. -/
def validate_arguments (args : HmcNutsArgs) : Bool × String :=
  if args.thin > args.num_samples then
    (false, thin_error_msg args.thin args.num_samples)
  else if !args.init_files.isEmpty && args.init_files.length != 1
      && args.init_files.length != args.num_chains then
    (false, inits_error_msg args.num_chains args.init_files.length)
  else if !args.metric_files.isEmpty && args.metric_files.length != 1
      && args.metric_files.length != args.num_chains then
    (false, metric_error_msg args.num_chains args.metric_files.length)
  else (true, "")

/-- Embedding of stan3::get_init_file_for_chain
(hmc_nuts_arguments.hpp lines 340-348).  C++ vector indexing is modelled
with getD; callers index within bounds on pre-validated lists. -/
def get_init_file_for_chain (args : HmcNutsArgs) (chain_idx : Nat) : String :=
  if args.init_files.isEmpty then ""
  else if args.init_files.length = 1 then args.init_files.getD 0 ("")
  else args.init_files.getD chain_idx ("")

/-- Embedding of stan3::get_metric_file_for_chain
(hmc_nuts_arguments.hpp lines 351-359). -/
def get_metric_file_for_chain (args : HmcNutsArgs) (chain_idx : Nat) : String :=
  if args.metric_files.isEmpty then ""
  else if args.metric_files.length = 1 then args.metric_files.getD 0 ("")
  else args.metric_files.getD chain_idx ("")

end hmc_nuts_arguments

namespace arguments

/-- Embedding of stan3::model_args (arguments.hpp lines 26-29). -/
structure ModelArgs where
  random_seed : Nat := 1
  data_file : String := ""

/-- Embedding of stan3::init_args (arguments.hpp lines 32-35). -/
structure InitArgs where
  init_radius : Rat := 2
  init_files : List String := []

/-- Embedding of stan3::inference_args (arguments.hpp lines 38-43). -/
structure InferenceArgs where
  model : ModelArgs := {}
  num_chains : Nat := 1
  init : InitArgs := {}
  output_dir : String := ""

/-- Embedding of the nested stan3::hmc_nuts_args struct
(arguments.hpp lines 46-73), with the source defaults. -/
structure HmcNutsArgs where
  base : InferenceArgs := {}
  num_warmup : Int := 1000
  num_samples : Int := 1000
  thin : Int := 1
  refresh : Int := 100
  metric_type : Int := 1
  metric_files : List String := []
  stepsize : Rat := 1
  stepsize_jitter : Rat := 0
  max_depth : Int := 10
  save_start_params : Bool := false
  save_warmup : Bool := false
  save_diagnostics : Bool := false
  save_metric : Bool := false
  delta : Rat := 8/10
  gamma : Rat := 1/20
  kappa : Rat := 3/4
  t0 : Rat := 10
  init_buffer : Nat := 75
  term_buffer : Nat := 50
  window : Nat := 25

/-- Embedding of stan3::validate_hmc_arguments (arguments.hpp lines
221-250).  In this validator the thin check is guarded by
num_samples > 0; the init-file and metric-file cardinality checks follow
in that order, and the first failing check selects the message. -/
def validate_hmc_arguments (args : HmcNutsArgs) : Bool × String :=
  if args.num_samples > 0 && args.thin > args.num_samples then
    (false, thin_error_msg args.thin args.num_samples)
  else if !args.base.init.init_files.isEmpty
      && args.base.init.init_files.length != 1
      && args.base.init.init_files.length != args.base.num_chains then
    (false, inits_error_msg args.base.num_chains args.base.init.init_files.length)
  else if !args.metric_files.isEmpty && args.metric_files.length != 1
      && args.metric_files.length != args.base.num_chains then
    (false, metric_error_msg args.base.num_chains args.metric_files.length)
  else (true, "")

/-- Embedding of stan3::get_init_file_for_chain on init_args
(arguments.hpp lines 507-515). -/
def get_init_file_for_chain (args : InitArgs) (chain_idx : Nat) : String :=
  if args.init_files.isEmpty then ""
  else if args.init_files.length = 1 then args.init_files.getD 0 ("")
  else args.init_files.getD chain_idx ("")

/-- Embedding of stan3::get_metric_file_for_chain on the nested args
(arguments.hpp lines 518-526). -/
def get_metric_file_for_chain (args : HmcNutsArgs) (chain_idx : Nat) : String :=
  if args.metric_files.isEmpty then ""
  else if args.metric_files.length = 1 then args.metric_files.getD 0 ("")
  else args.metric_files.getD chain_idx ("")

end arguments

/-- Embedding of the RNG-creation step of the stan3::load_samplers chain
loop (load_samplers.hpp lines 170-174): for every chain index i in
0..num_chains-1, in index order, the chain RNG is constructed as
create_rng(random_seed, i + 1).  The external
stan::services::util::create_rng is abstracted as the pure function
parameter create_rng over an arbitrary stream type R. -/
def load_samplers_rngs {R : Type} (create_rng : Nat → Nat → R)
    (random_seed : Nat) (num_chains : Nat) : List R :=
  (List.range num_chains).map (fun i => create_rng random_seed (i + 1))

/-- The chain ordinal passed to external collaborators for internal chain
index chain_idx: run_single_chain passes chain_idx + 1 to
run_adaptive_sampler (load_samplers.hpp line 280, run_samplers.hpp line
72), and the writer loops use chain ids 1..num_chains
(hmc_output_writers.hpp line 97, run_hmc_nuts.hpp line 64). -/
def external_chain_id (chain_idx : Nat) : Nat := chain_idx + 1

/-- The identity diagonal inverse metric: Eigen::VectorXd::Ones(n)
(load_samplers.hpp lines 83 and 88), entries modelled as rationals. -/
def vector_ones (n : Nat) : List Rat := List.replicate n 1

/-- The identity dense inverse metric: Eigen::MatrixXd::Identity(n, n)
(load_samplers.hpp lines 99 and 104). -/
def identity_matrix (n : Nat) : List (List Rat) :=
  (List.range n).map (fun i => (List.range n).map (fun j => if i = j then 1 else 0))

/-- Log message emitted when reading a provided diagonal metric fails
(load_samplers.hpp line 87). -/
def diag_fallback_msg : String :=
  "Using unit diagonal metric (failed to read provided metric)"

/-- Log message emitted when reading a provided dense metric fails
(load_samplers.hpp line 103). -/
def dense_fallback_msg : String :=
  "Using identity matrix metric (failed to read provided metric)"

/-- Embedding of the DIAG_E branch of stan3::configure_metric
(load_samplers.hpp lines 76-91).  The external readers and validators
(stan::services::util::read_diag_inv_metric, which throws on a missing or
malformed metric entry, and validate_diag_inv_metric, which throws on a
non-positive-finite metric) are abstracted as Except-valued parameters.
The result carries the inverse metric handed to sampler.set_metric and
the list of logger.info messages emitted; an error is an uncaught
exception escaping configure_metric. -/
def configure_metric_diag (read_diag : Ctx → Nat → Except String (List Rat))
    (validate_diag : List Rat → Except String Unit)
    (metric_context : Option Ctx) (num_params_r : Nat) :
    Except String (List Rat × List String) :=
  let step : List Rat × List String :=
    match metric_context with
    | some ctx =>
      match read_diag ctx num_params_r with
      | .ok v => (v, [])
      | .error _ => (vector_ones num_params_r, [diag_fallback_msg])
    | none => (vector_ones num_params_r, [])
  match validate_diag step.1 with
  | .ok _ => .ok step
  | .error e => .error e

/-- Embedding of the DENSE_E branch of stan3::configure_metric
(load_samplers.hpp lines 92-107), analogous to the diagonal branch with
the identity matrix as the fallback. -/
def configure_metric_dense (read_dense : Ctx → Nat → Except String (List (List Rat)))
    (validate_dense : List (List Rat) → Except String Unit)
    (metric_context : Option Ctx) (num_params_r : Nat) :
    Except String (List (List Rat) × List String) :=
  let step : List (List Rat) × List String :=
    match metric_context with
    | some ctx =>
      match read_dense ctx num_params_r with
      | .ok v => (v, [])
      | .error _ => (identity_matrix num_params_r, [dense_fallback_msg])
    | none => (identity_matrix num_params_r, [])
  match validate_dense step.1 with
  | .ok _ => .ok step
  | .error e => .error e

/-- Embedding of the UNIT_E branch of stan3::configure_metric
(load_samplers.hpp lines 108-111): the metric context is ignored and no
metric is set. -/
def configure_metric_unit (_metric_context : Option Ctx) : Except String Unit :=
  .ok ()

/-- The variant returned by stan3::create_samplers
(load_samplers.hpp lines 64-69): one constructor per statically distinct
sampler configuration type, where U, D and N stand for
sampler_config over adapt_unit_e_nuts, adapt_diag_e_nuts and
adapt_dense_e_nuts respectively (sampler_traits, lines 45-61). -/
inductive SamplerVariant (U D N : Type) where
  | unit_e (config : U)
  | diag_e (config : D)
  | dense_e (config : N)

/-- Embedding of stan3::create_samplers (load_samplers.hpp lines 213-235):
a switch on the runtime metric_type tag selecting exactly one of the three
load_samplers instantiations, with the default case throwing a
runtime_error naming the unknown tag value.  The three construction paths
are abstracted as thunks producing the respective configuration values. -/
def create_samplers {U D N : Type} (metric_type : Int)
    (load_unit : Unit → U) (load_diag : Unit → D) (load_dense : Unit → N) :
    Except String (SamplerVariant U D N) :=
  if metric_type = metric_t_UNIT_E then .ok (.unit_e (load_unit ()))
  else if metric_type = metric_t_DIAG_E then .ok (.diag_e (load_diag ()))
  else if metric_type = metric_t_DENSE_E then .ok (.dense_e (load_dense ()))
  else .error (("Unknown metric type: ") ++ toString metric_type)

/-- A constructed file-backed output writer, identified by the path of the
output file its ofstream created.  The model assumes the filesystem
accepts the open (an open failure throws and aborts the run, a path not
exercised by the claims below). -/
structure Writer where
  path : String
deriving DecidableEq

/-- Embedding of stan3::generate_filename (output_writers.hpp lines 47-54). -/
def generate_filename (model_name timestamp : String) (chain_id : Nat)
    (data_type extension : String) : String :=
  model_name ++ "_" ++ timestamp ++ "_chain" ++ toString chain_id
    ++ "_" ++ data_type ++ extension

/-- Embedding of stan3::create_file_path (output_writers.hpp lines 77-83). -/
def create_file_path (output_dir filename : String) : String :=
  if output_dir.isEmpty then filename else output_dir ++ "/" ++ filename

/-- Embedding of stan3::create_writer (output_writers.hpp lines 140-153),
with create_writer_impl abstracted to the successful open of the file at
the composed path. -/
def create_writer (output_dir model_name timestamp : String) (chain_id : Nat)
    (data_type extension : String) : Writer :=
  ⟨create_file_path output_dir
    (generate_filename model_name timestamp chain_id data_type extension)⟩

/-- Embedding of stan3::hmc_nuts_writers (hmc_output_writers.hpp lines
21-26): each unique_ptr slot is an Option, none modelling the null
pointer. -/
structure HmcNutsWriters where
  sample_writer : Option Writer
  start_params_writer : Option Writer
  diagnostics_writer : Option Writer
  metric_writer : Option Writer
deriving DecidableEq

/-- Embedding of stan3::create_hmc_nuts_single_chain_writers
(hmc_output_writers.hpp lines 37-77).  The second component is the list of
output files created, in creation order: the sample writer is always
created, each optional writer only when its save flag is set. -/
def create_hmc_nuts_single_chain_writers (args : hmc_nuts_arguments.HmcNutsArgs)
    (model_name timestamp : String) (chain_id : Nat) :
    HmcNutsWriters × List String :=
  let sample := create_writer args.output_dir model_name timestamp chain_id ("sample") (".csv")
  let sp := create_writer args.output_dir model_name timestamp chain_id ("start_params") (".csv")
  let diag := create_writer args.output_dir model_name timestamp chain_id ("param_grads") (".csv")
  let metric := create_writer args.output_dir model_name timestamp chain_id ("metric") (".json")
  ({ sample_writer := some sample
     start_params_writer := if args.save_start_params then some sp else none
     diagnostics_writer := if args.save_diagnostics then some diag else none
     metric_writer := if args.save_metric then some metric else none },
   [sample.path]
     ++ (if args.save_start_params then [sp.path] else [])
     ++ (if args.save_diagnostics then [diag.path] else [])
     ++ (if args.save_metric then [metric.path] else []))

/-- The writer reference actually handed to the sampling code: either a
real constructed writer or the inert stack-allocated dummy writer
(stan::callbacks::writer dummy_writer / structured_writer
dummy_structured_writer) whose writes are no-ops. -/
inductive WriterRef where
  | real (w : Writer)
  | dummy
deriving DecidableEq

/-- Routing of the diagnostics writer inside run_single_chain
(run_samplers.hpp lines 60-62, load_samplers.hpp lines 268-270): the real
writer when present, an inert dummy otherwise. -/
def effective_diagnostic_writer (writers : HmcNutsWriters) : WriterRef :=
  match writers.diagnostics_writer with
  | some w => .real w
  | none => .dummy

/-- Routing of the metric writer inside run_single_chain
(run_samplers.hpp lines 64-66, load_samplers.hpp lines 272-274). -/
def effective_metric_writer (writers : HmcNutsWriters) : WriterRef :=
  match writers.metric_writer with
  | some w => .real w
  | none => .dummy

/-- The nullable init-writer pointer collected by run_samplers
(run_samplers.hpp lines 115-118, load_samplers.hpp lines 318-321). -/
def init_writer_ptr (writers : HmcNutsWriters) : Option Writer :=
  writers.start_params_writer

/-- Routing of the init writer inside the load_samplers chain loop
(load_samplers.hpp lines 180-182): the real writer when the pointer is
non-null, the inert dummy otherwise. -/
def writer_to_use (init_writer : Option Writer) : WriterRef :=
  match init_writer with
  | some w => .real w
  | none => .dummy

/-- Observable events of a run, used to state ordering and absence
properties: a file opened for reading (read_json_data on a nonempty
path), an output file created (create_writer), the initial-parameter
draw for a chain (stan::services::util::initialize), a sampler
construction for a chain, and a run_adaptive_sampler invocation for a
chain. -/
inductive Ev where
  | openFile (path : String)
  | createFile (path : String)
  | drawInitParams (chain_idx : Nat)
  | mkSampler (chain_idx : Nat)
  | runChain (chain_idx : Nat)
deriving DecidableEq

/-- File-open events of one read_json_data call: an empty filename opens
nothing, a nonempty filename opens that file. -/
def open_events (filename : String) : List Ev :=
  if filename.isEmpty then [] else [Ev.openFile filename]

/-- Embedding of the per-chain context-reading loops of stan3::run_hmc
(run_hmc_nuts.hpp lines 84-111): for i from the given start index, for
`fuel` iterations, read_json_data is called on file_for i; the first
exception is wrapped by err_for and aborts the loop.  Each successful
parse allocates a fresh context object via std::make_shared; the Nat
paired with each Ctx is the allocation ordinal identifying that distinct
object.  The second component is the trace of file-open events. -/
def read_contexts_go (fs : FileSystem) (file_for : Nat → String)
    (err_for : Nat → String → String) :
    Nat → Nat → Except String (List (Ctx × Nat)) × List Ev
  | 0, _ => (.ok [], [])
  | fuel + 1, i =>
    match read_json_data fs (file_for i) with
    | .error e => (.error (err_for i e), open_events (file_for i))
    | .ok ctx =>
      let rest := read_contexts_go fs file_for err_for fuel (i + 1)
      (match rest.1 with
       | .ok ctxs => .ok ((ctx, i) :: ctxs)
       | .error e => .error e,
       open_events (file_for i) ++ rest.2)

/-- The full context-reading loop over chains 0..num_chains-1. -/
def read_contexts (fs : FileSystem) (file_for : Nat → String)
    (err_for : Nat → String → String) (num_chains : Nat) :
    Except String (List (Ctx × Nat)) × List Ev :=
  read_contexts_go fs file_for err_for num_chains 0

/-- Wrapper message for an init-file read failure
(run_hmc_nuts.hpp lines 92-93), std::endl rendered as a newline. -/
def init_read_err (chain_idx : Nat) (e : String) : String :=
  ("Error reading initial parameter values file for chain ")
    ++ toString (chain_idx + 1) ++ (": ") ++ e ++ ("\n")

/-- Wrapper message for a metric-file read failure
(run_hmc_nuts.hpp lines 107-108). -/
def metric_read_err (chain_idx : Nat) (e : String) : String :=
  ("Error reading precomputed inverse metric file for chain ")
    ++ toString (chain_idx + 1) ++ (": ") ++ e ++ ("\n")

/-- The facets of the loaded model used by run_hmc: its name, its
unconstrained parameter name list, and its unconstrained parameter count. -/
structure Model where
  model_name : String
  uparam_names : List String
  num_params_r : Nat

/-- External collaborators of run_hmc: the filesystem, the model loader
(::new_model, which may throw), the wall-clock timestamp, and the outcome
and event trace of the create-and-run-samplers phase (step 3 of run_hmc),
whose internals are modelled separately by load_samplers_rngs,
create_samplers, configure_metric and run_multiple_chains_sequential. -/
structure Externals where
  fs : FileSystem
  load_model : Ctx → Except String Model
  timestamp : String
  sampling_ok : Bool
  sampling_events : List Ev

/-- Embedding of the writer-configuration step of run_hmc
(run_hmc_nuts.hpp lines 60-67 together with
create_hmc_nuts_multi_chain_writers, hmc_output_writers.hpp lines
86-103): one writer set per chain with chain ids 1..num_chains, and the
trace of output files created. -/
def create_all_writers (args : hmc_nuts_arguments.HmcNutsArgs)
    (model_name timestamp : String) : List HmcNutsWriters × List Ev :=
  if args.num_chains = 1 then
    let w := create_hmc_nuts_single_chain_writers args model_name timestamp 1
    ([w.1], w.2.map Ev.createFile)
  else
    let ws := (List.range args.num_chains).map
      (fun i => create_hmc_nuts_single_chain_writers args model_name timestamp (i + 1))
    (ws.map Prod.fst, (ws.map Prod.snd).flatten.map Ev.createFile)

/-- Embedding of stan3::run_hmc (run_hmc_nuts.hpp lines 36-142) as a
staged pipeline returning the process exit code and the event trace:
read data, load the model, create the per-chain output writers, return 0
early for a model without unconstrained parameters, otherwise read the
per-chain init and metric contexts and hand over to the sampler phase. -/
def run_hmc (ext : Externals) (args : hmc_nuts_arguments.HmcNutsArgs) :
    Int × List Ev :=
  let data_evs := open_events args.data_file
  match read_json_data ext.fs args.data_file with
  | .error _ => (1, data_evs)
  | .ok data_ctx =>
    match ext.load_model data_ctx with
    | .error _ => (1, data_evs)
    | .ok model =>
      let w := create_all_writers args model.model_name ext.timestamp
      let evs1 := data_evs ++ w.2
      if model.uparam_names.isEmpty then
        (0, evs1)
      else
        let inits := read_contexts ext.fs
          (fun i => hmc_nuts_arguments.get_init_file_for_chain args i)
          init_read_err args.num_chains
        match inits.1 with
        | .error _ => (1, evs1 ++ inits.2)
        | .ok _ =>
          let metrics := read_contexts ext.fs
            (fun i => hmc_nuts_arguments.get_metric_file_for_chain args i)
            metric_read_err args.num_chains
          match metrics.1 with
          | .error _ => (1, evs1 ++ inits.2 ++ metrics.2)
          | .ok _ =>
            (if ext.sampling_ok then 0 else 1,
             evs1 ++ inits.2 ++ metrics.2 ++ ext.sampling_events)

/-- Embedding of the validate-then-run shape of the entry points
(stan3_c_api.cpp run_samplers_impl together with parse_hmc_args,
arguments.hpp lines 363-378, and main.cpp lines 29-49): when validation
fails, its message is returned and the run is never invoked, so the event
trace is empty. -/
def run_samplers_impl (validation : Bool × String)
    (run : Unit → Int × List Ev) : (Bool × String) × List Ev :=
  if validation.1 then
    let r := run ()
    (if r.1 = 0 then (true, "")
     else (false, ("Sampling failed with exit code: ") ++ toString r.1), r.2)
  else ((false, validation.2), [])

/-- Embedding of the loop body of
sampler_runner::run_multiple_chains_sequential (run_samplers.hpp lines
75-90), with the per-chain execution outcome (run_single_chain, whose
exceptions propagate after being logged) abstracted as `outcome`.  The
first component lists the chains started, in start order; recursion is on
the remaining iteration count, starting at chain index i. -/
def run_chains_go (outcome : Nat → Except String Unit) :
    Nat → Nat → List Nat × Option String
  | 0, _ => ([], none)
  | fuel + 1, i =>
    match outcome i with
    | .ok _ =>
      let rest := run_chains_go outcome fuel (i + 1)
      (i :: rest.1, rest.2)
    | .error e => ([i], some e)

/-- The sequential multi-chain scheduler over chains 0..num_chains-1:
each chain runs to completion before the next starts, and the first
failure rethrows, aborting the run. -/
def run_multiple_chains_sequential (outcome : Nat → Except String Unit)
    (num_chains : Nat) : List Nat × Option String :=
  run_chains_go outcome num_chains 0

/-- A mention inside the left part of a concatenation survives the
concatenation. -/
theorem mentions_append_left {a pat : String} (b : String)
    (h : mentions a pat) : mentions (a ++ b) pat := by
  unfold mentions at *
  have hd : (a ++ b).toList = a.toList ++ b.toList := by
    simp [String.toList, String.data_append]
  rw [hd]
  exact h.trans (List.infix_append [] _ _)

/-- A mention inside the right part of a concatenation survives the
concatenation. -/
theorem mentions_append_right {b pat : String} (a : String)
    (h : mentions b pat) : mentions (a ++ b) pat := by
  unfold mentions at *
  have hd : (a ++ b).toList = a.toList ++ b.toList := by
    simp [String.toList, String.data_append]
  rw [hd]
  exact h.trans ⟨a.toList, [], by simp⟩

/-- Every string mentions itself. -/
theorem mentions_self (s : String) : mentions s s :=
  List.infix_rfl

/-- The thin-validation error message mentions both the option name and
the word exceed. -/
theorem thin_msg_mentioned (t s : Int) :
    mentions (thin_error_msg t s) ("thin")
    ∧ mentions (thin_error_msg t s) ("exceed") := by
  constructor
  · unfold thin_error_msg
    apply mentions_append_left
    apply mentions_append_left
    apply mentions_append_left
    apply mentions_append_left
    decide
  · unfold thin_error_msg
    apply mentions_append_left
    apply mentions_append_left
    apply mentions_append_right
    decide

/-- The metric-cardinality error message mentions the metric option, the
count 1, and the chain count followed by the word files. -/
theorem metric_msg_mentioned (c l : Nat) :
    mentions (metric_error_msg c l) ("metric")
    ∧ mentions (metric_error_msg c l) ("1 file")
    ∧ mentions (metric_error_msg c l) (toString c ++ " files") := by
  refine ⟨?_, ?_, ?_⟩
  · unfold metric_error_msg
    apply mentions_append_left
    apply mentions_append_left
    apply mentions_append_left
    apply mentions_append_left
    apply mentions_append_left
    decide
  · unfold metric_error_msg
    apply mentions_append_left
    apply mentions_append_left
    apply mentions_append_left
    apply mentions_append_left
    apply mentions_append_left
    decide
  · unfold metric_error_msg
    apply mentions_append_left
    apply mentions_append_left
    apply mentions_append_left
    have hsplit : (" files (one per chain). " : String)
        = (" files") ++ (" (one per chain). ") := rfl
    rw [hsplit]
    unfold mentions
    have hd : ∀ x y : String, (x ++ y).toList = x.toList ++ y.toList := by
      intro x y; simp [String.toList, String.data_append]
    rw [hd, hd, hd]
    refine ⟨("Error: --metric must specify either 1 file (for all chains) or ").toList,
            (" (one per chain). ").toList, ?_⟩
    simp [List.append_assoc]

/-- Claim C6: The per-chain resource resolvers return the empty string on
an empty list, the sole entry on a singleton list for every chain index,
and the entry at the chain index on a list whose length equals the chain
count, for both the init-file resolver (arguments.hpp) and the
metric-file resolver (hmc_nuts_arguments.hpp). -/
theorem resource_file_for_chain_resolution (ia : arguments.InitArgs)
    (fa : hmc_nuts_arguments.HmcNutsArgs) (i : Nat) :
    (ia.init_files = [] → arguments.get_init_file_for_chain ia i = "")
    ∧ (∀ f, ia.init_files = [f] → arguments.get_init_file_for_chain ia i = f)
    ∧ (∀ c, ia.init_files.length = c → i < c →
        arguments.get_init_file_for_chain ia i = ia.init_files.getD i (""))
    ∧ (fa.metric_files = [] → hmc_nuts_arguments.get_metric_file_for_chain fa i = "")
    ∧ (∀ f, fa.metric_files = [f] →
        hmc_nuts_arguments.get_metric_file_for_chain fa i = f)
    ∧ (∀ c, fa.metric_files.length = c → i < c →
        hmc_nuts_arguments.get_metric_file_for_chain fa i
          = fa.metric_files.getD i ("")) := by
  refine ⟨?_, ?_, ?_, ?_, ?_, ?_⟩
  · intro h; simp [arguments.get_init_file_for_chain, h]
  · intro f h; simp [arguments.get_init_file_for_chain, h]
  · intro c hlen hic
    subst hlen
    unfold arguments.get_init_file_for_chain
    split
    · next hemp =>
      rw [List.isEmpty_iff] at hemp
      rw [hemp] at hic
      simp at hic
    · split
      · next hone =>
        have h0 : i = 0 := by omega
        rw [h0]
      · rfl
  · intro h; simp [hmc_nuts_arguments.get_metric_file_for_chain, h]
  · intro f h; simp [hmc_nuts_arguments.get_metric_file_for_chain, h]
  · intro c hlen hic
    subst hlen
    unfold hmc_nuts_arguments.get_metric_file_for_chain
    split
    · next hemp =>
      rw [List.isEmpty_iff] at hemp
      rw [hemp] at hic
      simp at hic
    · split
      · next hone =>
        have h0 : i = 0 := by omega
        rw [h0]
      · rfl

/-- Witness for C6 at concrete inputs exercising each branch. -/
theorem resource_file_for_chain_resolution_witness :
    arguments.get_init_file_for_chain ⟨2, ["a", "b"]⟩ 1 = "b"
    ∧ hmc_nuts_arguments.get_metric_file_for_chain { metric_files := ["m"] } 1 = "m"
    ∧ arguments.get_init_file_for_chain ⟨2, []⟩ 0 = "" := by
  refine ⟨?_, ?_, ?_⟩
  · have h := (resource_file_for_chain_resolution ⟨2, ["a", "b"]⟩ {} 1).2.2.1
      2 rfl (by decide)
    rw [h]; rfl
  · exact (resource_file_for_chain_resolution ⟨2, []⟩
      { metric_files := ["m"] } 1).2.2.2.2.1 ("m") rfl
  · exact (resource_file_for_chain_resolution ⟨2, []⟩ {} 0).1 rfl

/-- Claim C7: create_samplers takes exactly one of three mutually
exclusive construction paths selected by the metric_type tag, returning
the variant alternative matching the tag (unit_e, diag_e, dense_e
respectively), and throws an error naming the unknown metric type for any
other tag value. -/
theorem create_samplers_dispatch {U D N : Type}
    (load_unit : Unit → U) (load_diag : Unit → D) (load_dense : Unit → N)
    (metric_type : Int) :
    (metric_type = metric_t_UNIT_E →
      create_samplers metric_type load_unit load_diag load_dense
        = .ok (.unit_e (load_unit ())))
    ∧ (metric_type = metric_t_DIAG_E →
      create_samplers metric_type load_unit load_diag load_dense
        = .ok (.diag_e (load_diag ())))
    ∧ (metric_type = metric_t_DENSE_E →
      create_samplers metric_type load_unit load_diag load_dense
        = .ok (.dense_e (load_dense ())))
    ∧ (metric_type ≠ metric_t_UNIT_E → metric_type ≠ metric_t_DIAG_E →
      metric_type ≠ metric_t_DENSE_E →
      create_samplers metric_type load_unit load_diag load_dense
        = .error (("Unknown metric type: ") ++ toString metric_type)
      ∧ mentions (("Unknown metric type: ") ++ toString metric_type)
          ("Unknown metric type"))
    ∧ ((SamplerVariant.unit_e (load_unit ()) : SamplerVariant U D N)
        ≠ .diag_e (load_diag ())
      ∧ (SamplerVariant.unit_e (load_unit ()) : SamplerVariant U D N)
        ≠ .dense_e (load_dense ())
      ∧ (SamplerVariant.diag_e (load_diag ()) : SamplerVariant U D N)
        ≠ .dense_e (load_dense ())) := by
  refine ⟨?_, ?_, ?_, ?_, ?_, ?_, ?_⟩
  · intro h; simp [create_samplers, h]
  · intro h; simp [create_samplers, h, metric_t_DIAG_E, metric_t_UNIT_E]
  · intro h
    simp [create_samplers, h, metric_t_DENSE_E, metric_t_UNIT_E, metric_t_DIAG_E]
  · intro h1 h2 h3
    refine ⟨by simp [create_samplers, h1, h2, h3], ?_⟩
    apply mentions_append_left
    decide
  · exact fun h => SamplerVariant.noConfusion h
  · exact fun h => SamplerVariant.noConfusion h
  · exact fun h => SamplerVariant.noConfusion h

/-- Witness for C7 at the concrete tags 2 and 7. -/
theorem create_samplers_dispatch_witness :
    create_samplers 2 (fun _ => (0 : Nat)) (fun _ => (1 : Nat)) (fun _ => (2 : Nat))
      = .ok (.dense_e 2)
    ∧ create_samplers 7 (fun _ => (0 : Nat)) (fun _ => (1 : Nat)) (fun _ => (2 : Nat))
      = .error (("Unknown metric type: ") ++ toString (7 : Int)) := by
  constructor
  · exact (create_samplers_dispatch (fun _ => (0 : Nat)) (fun _ => (1 : Nat))
      (fun _ => (2 : Nat)) 2).2.2.1 rfl
  · exact ((create_samplers_dispatch (fun _ => (0 : Nat)) (fun _ => (1 : Nat))
      (fun _ => (2 : Nat)) 7).2.2.2.1 (by decide) (by decide) (by decide)).1

/-- Claim C1: The RNG stream constructed for chain index i by the
load_samplers loop is create_rng(seed, i + 1), a pure function of the
seed and the index alone: it is unchanged under a different total chain
count, and the externally exposed chain ordinal for internal index i is
i + 1. -/
theorem chain_rng_pure_of_seed_index {R : Type}
    (create_rng : Nat → Nat → R) (random_seed num_chains num_chains2 i : Nat)
    (h1 : i < num_chains) (h2 : i < num_chains2) :
    (load_samplers_rngs create_rng random_seed num_chains)[i]?
        = some (create_rng random_seed (i + 1))
    ∧ (load_samplers_rngs create_rng random_seed num_chains)[i]?
        = (load_samplers_rngs create_rng random_seed num_chains2)[i]?
    ∧ external_chain_id i = i + 1 := by
  refine ⟨?_, ?_, rfl⟩
  · simp [load_samplers_rngs, List.getElem?_map, List.getElem?_range, h1]
  · simp [load_samplers_rngs, List.getElem?_map, List.getElem?_range, h1, h2]

/-- Witness for C1 with a concrete stream function, seed 7, chain counts
2 and 4, index 1. -/
theorem chain_rng_pure_of_seed_index_witness :
    (load_samplers_rngs (fun s k => s * 100 + k) 7 2)[1]? = some 702
    ∧ external_chain_id 1 = 2 := by
  have h := chain_rng_pure_of_seed_index (fun s k => s * 100 + k) 7 2 4 1
    (by decide) (by decide)
  exact ⟨h.1, h.2.2⟩

/-- Claim C3: When reading the per-chain metric resource throws, the
diagonal branch of configure_metric does not propagate the exception: it
substitutes the vector of ones of the parameter-count dimension, logs the
fallback message, and returns normally (the dense branch analogously
substitutes the identity matrix), provided the subsequent external shape
validation accepts the identity metric, as it does. -/
theorem configure_metric_substitutes_identity
    (read_diag : Ctx → Nat → Except String (List Rat))
    (validate_diag : List Rat → Except String Unit)
    (read_dense : Ctx → Nat → Except String (List (List Rat)))
    (validate_dense : List (List Rat) → Except String Unit)
    (ctx : Ctx) (n : Nat) (e1 e2 : String)
    (hr : read_diag ctx n = .error e1)
    (hv : validate_diag (vector_ones n) = .ok ())
    (hr2 : read_dense ctx n = .error e2)
    (hv2 : validate_dense (identity_matrix n) = .ok ()) :
    configure_metric_diag read_diag validate_diag (some ctx) n
      = .ok (vector_ones n, [diag_fallback_msg])
    ∧ configure_metric_dense read_dense validate_dense (some ctx) n
      = .ok (identity_matrix n, [dense_fallback_msg]) := by
  constructor
  · simp [configure_metric_diag, hr, hv]
  · simp [configure_metric_dense, hr2, hv2]

/-- Witness for C3: a reader that always throws, a validator that checks
positivity of the diagonal entries, parameter count 3. -/
theorem configure_metric_substitutes_identity_witness :
    configure_metric_diag (fun _ _ => .error ("bad json"))
      (fun v => if v.all (fun x => decide (0 < x)) then .ok () else .error ("nonpositive"))
      (some Ctx.empty) 3
      = .ok (vector_ones 3, [diag_fallback_msg])
    ∧ configure_metric_dense (fun _ _ => .error ("bad json"))
      (fun _ => .ok ()) (some Ctx.empty) 3
      = .ok (identity_matrix 3, [dense_fallback_msg]) :=
  configure_metric_substitutes_identity
    (fun _ _ => .error ("bad json"))
    (fun v => if v.all (fun x => decide (0 < x)) then .ok () else .error ("nonpositive"))
    (fun _ _ => .error ("bad json")) (fun _ => .ok ())
    Ctx.empty 3 ("bad json") ("bad json") rfl rfl rfl rfl

/-- Shifting a mapped range by one: the head peels off and the tail
starts one index later. -/
theorem range_map_shift {α : Type} (g : Nat → α) (n : Nat) (i : Nat) :
    (List.range (n + 1)).map (fun k => g (i + k))
      = g i :: (List.range n).map (fun k => g ((i + 1) + k)) := by
  rw [List.range_succ_eq_map]
  simp only [List.map_cons, List.map_map, Nat.add_zero]
  congr 1
  apply List.map_congr_left
  intro a _
  simp only [Function.comp]
  congr 1
  omega

/-- The sequential chain loop visits every index when every chain
succeeds. -/
theorem run_chains_go_all_ok (outcome : Nat → Except String Unit) :
    ∀ fuel i, (∀ k, k < fuel → outcome (i + k) = .ok ()) →
    run_chains_go outcome fuel i
      = ((List.range fuel).map (fun k => i + k), none) := by
  intro fuel
  induction fuel with
  | zero => intro i _; simp [run_chains_go]
  | succ n ih =>
    intro i h
    have h0 : outcome i = .ok () := by
      have := h 0 (Nat.succ_pos n)
      simpa using this
    have htail : ∀ k, k < n → outcome ((i + 1) + k) = .ok () := by
      intro k hk
      have := h (k + 1) (by omega)
      have heq : i + (k + 1) = (i + 1) + k := by omega
      rw [heq] at this
      exact this
    simp only [run_chains_go, h0]
    rw [ih (i + 1) htail]
    have hr : (List.range (n + 1)).map (fun k => i + k)
        = i :: (List.range n).map (fun k => (i + 1) + k) :=
      range_map_shift (fun x => x) n i
    simp [hr]

/-- The sequential chain loop stops at the first failing index, having
started exactly the chains up to and including it. -/
theorem run_chains_go_first_fail (outcome : Nat → Except String Unit) :
    ∀ fuel i j e, j < fuel → (∀ k, k < j → outcome (i + k) = .ok ()) →
    outcome (i + j) = .error e →
    run_chains_go outcome fuel i
      = ((List.range (j + 1)).map (fun k => i + k), some e) := by
  intro fuel
  induction fuel with
  | zero => intro i j e hj _ _; omega
  | succ n ih =>
    intro i j e hj hok hfail
    cases j with
    | zero =>
      have h0 : outcome i = .error e := by simpa using hfail
      simp only [run_chains_go, h0]
      rfl
    | succ m =>
      have h0 : outcome i = .ok () := by
        have := hok 0 (by omega)
        simpa using this
      have htail : ∀ k, k < m → outcome ((i + 1) + k) = .ok () := by
        intro k hk
        have := hok (k + 1) (by omega)
        have heq : i + (k + 1) = (i + 1) + k := by omega
        rw [heq] at this
        exact this
      have hfail2 : outcome ((i + 1) + m) = .error e := by
        have heq : (i + 1) + m = i + (m + 1) := by omega
        rw [heq]
        exact hfail
      simp only [run_chains_go, h0]
      rw [ih (i + 1) m e (by omega) htail hfail2]
      have hr : (List.range ((m + 1) + 1)).map (fun k => i + k)
          = i :: (List.range (m + 1)).map (fun k => (i + 1) + k) :=
        range_map_shift (fun x => x) (m + 1) i
      simp [hr]

/-- Claim C9: Under the sequential scheduling policy the chains run one
at a time in increasing index order, each to completion before the next
starts: with no failures the started-chain trace is exactly 0..n-1 in
order; when chain j is the first to fail, the trace is exactly 0..j, the
error of chain j is rethrown, and no chain with a higher index is ever
started. -/
theorem sequential_chains_order_abort (outcome : Nat → Except String Unit)
    (num_chains : Nat) :
    ((∀ k, k < num_chains → outcome k = .ok ()) →
      run_multiple_chains_sequential outcome num_chains
        = (List.range num_chains, none))
    ∧ (∀ j e, j < num_chains → (∀ k, k < j → outcome k = .ok ()) →
      outcome j = .error e →
      run_multiple_chains_sequential outcome num_chains
        = (List.range (j + 1), some e)
      ∧ ∀ m ∈ (run_multiple_chains_sequential outcome num_chains).1, m ≤ j) := by
  constructor
  · intro h
    have hrun := run_chains_go_all_ok outcome num_chains 0 (by simpa using h)
    simpa [run_multiple_chains_sequential] using hrun
  · intro j e hj hok hfail
    have hrun := run_chains_go_first_fail outcome num_chains 0 j e hj
      (by simpa using hok) (by simpa using hfail)
    have h2 : run_multiple_chains_sequential outcome num_chains
        = (List.range (j + 1), some e) := by
      simpa [run_multiple_chains_sequential] using hrun
    refine ⟨h2, ?_⟩
    rw [h2]
    intro m hm
    simp [List.mem_range] at hm
    omega

/-- Witness for C9: three chains with chain 1 failing; chains 0 and 1
start in order, chain 2 is never started, and the error propagates. -/
theorem sequential_chains_order_abort_witness :
    run_multiple_chains_sequential
      (fun i => if i = 1 then .error ("boom") else .ok ()) 3
      = ([0, 1], some ("boom")) := by
  have h := (sequential_chains_order_abort
      (fun i => if i = 1 then .error ("boom") else .ok ()) 3).2 1 ("boom")
    (by omega)
    (fun k hk => by
      have hk0 : k = 0 := by omega
      subst hk0
      rfl)
    rfl
  rw [h.1]
  rfl

/-- The context-reading loop on a constant nonempty filename with a
successful parse: every iteration opens the file anew and allocates a
fresh context object carrying the same parsed content. -/
theorem read_contexts_go_const (fs : FileSystem) (f : String) (ctx : Ctx)
    (err_for : Nat → String → String)
    (hne : f.isEmpty = false)
    (hparse : read_json_data fs f = .ok ctx) :
    ∀ fuel i, read_contexts_go fs (fun _ => f) err_for fuel i
      = (.ok ((List.range fuel).map (fun k => (ctx, i + k))),
         List.replicate fuel (Ev.openFile f)) := by
  intro fuel
  induction fuel with
  | zero => intro i; simp [read_contexts_go]
  | succ n ih =>
    intro i
    simp only [read_contexts_go, hparse, ih (i + 1)]
    rw [range_map_shift (fun k => (ctx, k)) n i]
    simp [open_events, hne, List.replicate_succ]

/-- Claim C4 (amended): With an init-file list of length one and chain
count c, every chain resolves to the same file path, but the file is
opened and parsed once per chain (c open events in total), each chain
receiving its own freshly allocated context object; the parsed content is
the same for every chain while the allocation ordinals differ. -/
theorem init_context_per_chain_parse (fs : FileSystem)
    (args : hmc_nuts_arguments.HmcNutsArgs) (f : String) (ctx : Ctx)
    (hf : args.init_files = [f])
    (hne : f.isEmpty = false)
    (hparse : read_json_data fs f = .ok ctx) :
    (read_contexts fs
        (fun i => hmc_nuts_arguments.get_init_file_for_chain args i)
        init_read_err args.num_chains).2
      = List.replicate args.num_chains (Ev.openFile f)
    ∧ (read_contexts fs
        (fun i => hmc_nuts_arguments.get_init_file_for_chain args i)
        init_read_err args.num_chains).1
      = .ok ((List.range args.num_chains).map (fun i => (ctx, i)))
    ∧ (∀ i, hmc_nuts_arguments.get_init_file_for_chain args i = f) := by
  have hconst : (fun i => hmc_nuts_arguments.get_init_file_for_chain args i)
      = fun _ => f := by
    funext i
    simp [hmc_nuts_arguments.get_init_file_for_chain, hf]
  have hrun := read_contexts_go_const fs f ctx init_read_err hne hparse
    args.num_chains 0
  refine ⟨?_, ?_, ?_⟩
  · rw [read_contexts, hconst, hrun]
  · rw [read_contexts, hconst, hrun]
    simp
  · intro i
    exact congrFun hconst i

/-- Witness for C4 (amended) with a concrete filesystem, the file f and
two chains. -/
theorem init_context_per_chain_parse_witness :
    (read_contexts ⟨fun _ => true, fun _ => true, fun g => .ok (.json g)⟩
        (fun i => hmc_nuts_arguments.get_init_file_for_chain
          { num_chains := 2, init_files := ["f"] } i)
        init_read_err 2).2
      = [Ev.openFile ("f"), Ev.openFile ("f")] := by
  have h := init_context_per_chain_parse
    ⟨fun _ => true, fun _ => true, fun g => .ok (.json g)⟩
    { num_chains := 2, init_files := ["f"] } ("f") (Ctx.json ("f")) rfl rfl rfl
  rw [h.1]
  rfl

/-- Counterexample to claim C4 as stated: with chain count 2 and an
init-file list of length 1, the run opens and parses the file twice (not
at most once), and the two chains receive distinct parsed context
objects, not the identical object. -/
theorem shared_init_reparsed_counterexample :
    ((run_hmc ⟨⟨fun _ => true, fun _ => true, fun g => .ok (.json g)⟩,
        fun _ => .ok ⟨"m", ["theta"], 1⟩, "ts", true, []⟩
        { num_chains := 2, init_files := ["f"] }).2.count (Ev.openFile ("f")) = 2)
    ∧ ((read_contexts ⟨fun _ => true, fun _ => true, fun g => .ok (.json g)⟩
        (fun i => hmc_nuts_arguments.get_init_file_for_chain
          { num_chains := 2, init_files := ["f"] } i) init_read_err 2).1
      = .ok [(Ctx.json ("f"), 0), (Ctx.json ("f"), 1)])
    ∧ ((Ctx.json ("f"), (0 : Nat)) ≠ (Ctx.json ("f"), (1 : Nat))) := by
  refine ⟨rfl, rfl, by decide⟩

/-- Counterexample to claim C5 as stated: with num_samples = 0 and
thin = 1, thin exceeds num_samples yet validate_hmc_arguments succeeds,
because its thin check is guarded by num_samples > 0 (and the unit test
ValidateHmcArguments_BoundaryConditions confirms this acceptance). -/
theorem thin_zero_samples_counterexample :
    (arguments.validate_hmc_arguments { num_samples := 0, thin := 1 }).1 = true
    ∧ ({ num_samples := 0, thin := 1 } : arguments.HmcNutsArgs).thin
        > ({ num_samples := 0, thin := 1 } : arguments.HmcNutsArgs).num_samples := by
  refine ⟨rfl, by decide⟩

/-- Claim C5 (amended): When num_samples is positive, any configuration
with thin exceeding num_samples is rejected by validate_hmc_arguments
with the thin message, which mentions thin and exceed, and the
validate-then-run pipeline performs no run events, so no chain is
constructed; the flat validate_arguments rejects whenever thin exceeds
num_samples.  (When num_samples = 0 the nested validator accepts any
thin.) -/
theorem thin_exceeds_samples_amended (args : arguments.HmcNutsArgs)
    (fargs : hmc_nuts_arguments.HmcNutsArgs) (run : Unit → Int × List Ev)
    (h1 : args.num_samples > 0) (h2 : args.thin > args.num_samples)
    (h3 : fargs.thin > fargs.num_samples) :
    (arguments.validate_hmc_arguments args).1 = false
    ∧ (arguments.validate_hmc_arguments args).2
        = thin_error_msg args.thin args.num_samples
    ∧ mentions (arguments.validate_hmc_arguments args).2 ("thin")
    ∧ mentions (arguments.validate_hmc_arguments args).2 ("exceed")
    ∧ (run_samplers_impl (arguments.validate_hmc_arguments args) run).2 = []
    ∧ (hmc_nuts_arguments.validate_arguments fargs).1 = false
    ∧ (hmc_nuts_arguments.validate_arguments fargs).2
        = thin_error_msg fargs.thin fargs.num_samples := by
  have hv : arguments.validate_hmc_arguments args
      = (false, thin_error_msg args.thin args.num_samples) := by
    simp [arguments.validate_hmc_arguments, h1, h2]
  have hv2 : hmc_nuts_arguments.validate_arguments fargs
      = (false, thin_error_msg fargs.thin fargs.num_samples) := by
    simp [hmc_nuts_arguments.validate_arguments, h3]
  refine ⟨by rw [hv], by rw [hv], ?_, ?_, ?_, by rw [hv2], by rw [hv2]⟩
  · rw [hv]
    exact (thin_msg_mentioned _ _).1
  · rw [hv]
    exact (thin_msg_mentioned _ _).2
  · simp [run_samplers_impl, hv]

/-- Witness for C5 (amended) at the Scenario C input thin = 1500,
num_samples = 1000. -/
theorem thin_exceeds_samples_amended_witness :
    (arguments.validate_hmc_arguments { thin := 1500, num_samples := 1000 }).1 = false
    ∧ mentions (arguments.validate_hmc_arguments
        { thin := 1500, num_samples := 1000 }).2 ("thin")
    ∧ mentions (arguments.validate_hmc_arguments
        { thin := 1500, num_samples := 1000 }).2 ("exceed") := by
  have h := thin_exceeds_samples_amended { thin := 1500, num_samples := 1000 }
    { thin := 2, num_samples := 1 } (fun _ => (0, []))
    (by decide) (by decide) (by decide)
  exact ⟨h.1, h.2.2.1, h.2.2.2.1⟩

/-- The broadcast-cardinality condition tested by both validators,
expressed through the lengths it accepts. -/
theorem card_cond_true_iff (l : List String) (c : Nat) :
    (!l.isEmpty && l.length != 1 && l.length != c) = true
      ↔ ¬ (l.length = 0 ∨ l.length = 1 ∨ l.length = c) := by
  by_cases h0 : l = []
  · subst h0
    simp
  · have hne : l.isEmpty = false := by
      rw [Bool.eq_false_iff, Ne, List.isEmpty_iff]
      exact h0
    have hl0 : l.length ≠ 0 := by
      simpa [List.length_eq_zero] using h0
    by_cases h1 : l.length = 1
    · simp [hne, h1]
    · by_cases hc : l.length = c
      · simp [hne, h1, hc]
      · simp [hne, h1, hc, hl0]

/-- Reduction of validate_hmc_arguments once the thin check is known to
pass. -/
theorem validate_hmc_arguments_eq (args : arguments.HmcNutsArgs)
    (hb : (decide (args.num_samples > 0)
        && decide (args.thin > args.num_samples)) = false) :
    arguments.validate_hmc_arguments args
      = (if (!args.base.init.init_files.isEmpty
            && args.base.init.init_files.length != 1
            && args.base.init.init_files.length != args.base.num_chains) then
          (false, inits_error_msg args.base.num_chains
            args.base.init.init_files.length)
        else if (!args.metric_files.isEmpty && args.metric_files.length != 1
            && args.metric_files.length != args.base.num_chains) then
          (false, metric_error_msg args.base.num_chains args.metric_files.length)
        else (true, "")) := by
  unfold arguments.validate_hmc_arguments
  rw [hb]
  simp

/-- Reduction of the flat validate_arguments once the thin check is known
to pass. -/
theorem validate_arguments_eq (fargs : hmc_nuts_arguments.HmcNutsArgs)
    (hb : ¬ (fargs.thin > fargs.num_samples)) :
    hmc_nuts_arguments.validate_arguments fargs
      = (if (!fargs.init_files.isEmpty && fargs.init_files.length != 1
            && fargs.init_files.length != fargs.num_chains) then
          (false, inits_error_msg fargs.num_chains fargs.init_files.length)
        else if (!fargs.metric_files.isEmpty && fargs.metric_files.length != 1
            && fargs.metric_files.length != fargs.num_chains) then
          (false, metric_error_msg fargs.num_chains fargs.metric_files.length)
        else (true, "")) := by
  unfold hmc_nuts_arguments.validate_arguments
  rw [if_neg hb]

/-- Counterexample to claim C2 as stated: (a) with chain count 2, an
init list of length 3 and a metric list of length 3, validation fails
with the init-list message, which does not mention the metric option;
(b) with both list lengths in the accepted set but thin = 5 exceeding
num_samples = 3, validation nevertheless fails, refuting the
succeeds-iff as quantified. -/
theorem validate_metric_message_counterexample :
    ((arguments.validate_hmc_arguments
        { base := { num_chains := 2, init := { init_files := ["a", "b", "c"] } },
          metric_files := ["d", "e", "f"] }).1 = false
      ∧ ¬ mentions (arguments.validate_hmc_arguments
        { base := { num_chains := 2, init := { init_files := ["a", "b", "c"] } },
          metric_files := ["d", "e", "f"] }).2 ("metric"))
    ∧ (arguments.validate_hmc_arguments { thin := 5, num_samples := 3 }).1
        = false := by
  refine ⟨⟨rfl, by decide⟩, rfl⟩

/-- Claim C2 (amended): Provided the thin check passes, each validator
succeeds iff both the init-file and metric-file list lengths lie in
{0, 1, chain count}; the checks run in order (thin, inits, metric), so
when the metric list has any other length and the init list is valid,
validation fails with the metric message, which mentions the metric
option and the expected counts (1, and the chain count), and the
validate-then-run pipeline opens no file (its event trace is empty). -/
theorem validate_cardinality_amended (args : arguments.HmcNutsArgs)
    (fargs : hmc_nuts_arguments.HmcNutsArgs) (run : Unit → Int × List Ev)
    (hthin : ¬ (args.num_samples > 0 ∧ args.thin > args.num_samples))
    (hfthin : ¬ (fargs.thin > fargs.num_samples)) :
    ((arguments.validate_hmc_arguments args).1 = true ↔
      ((args.base.init.init_files.length = 0
          ∨ args.base.init.init_files.length = 1
          ∨ args.base.init.init_files.length = args.base.num_chains)
        ∧ (args.metric_files.length = 0 ∨ args.metric_files.length = 1
          ∨ args.metric_files.length = args.base.num_chains)))
    ∧ ((hmc_nuts_arguments.validate_arguments fargs).1 = true ↔
      ((fargs.init_files.length = 0 ∨ fargs.init_files.length = 1
          ∨ fargs.init_files.length = fargs.num_chains)
        ∧ (fargs.metric_files.length = 0 ∨ fargs.metric_files.length = 1
          ∨ fargs.metric_files.length = fargs.num_chains)))
    ∧ ((args.base.init.init_files.length = 0
          ∨ args.base.init.init_files.length = 1
          ∨ args.base.init.init_files.length = args.base.num_chains) →
       ¬ (args.metric_files.length = 0 ∨ args.metric_files.length = 1
          ∨ args.metric_files.length = args.base.num_chains) →
       (arguments.validate_hmc_arguments args).1 = false
       ∧ (arguments.validate_hmc_arguments args).2
           = metric_error_msg args.base.num_chains args.metric_files.length
       ∧ mentions (arguments.validate_hmc_arguments args).2 ("metric")
       ∧ mentions (arguments.validate_hmc_arguments args).2 ("1 file")
       ∧ mentions (arguments.validate_hmc_arguments args).2
           (toString args.base.num_chains ++ " files")
       ∧ (run_samplers_impl (arguments.validate_hmc_arguments args) run).2 = []) := by
  have hb : (decide (args.num_samples > 0)
      && decide (args.thin > args.num_samples)) = false := by
    by_cases hp : args.num_samples > 0
    · by_cases hq : args.thin > args.num_samples
      · exact absurd ⟨hp, hq⟩ hthin
      · simp [hq]
    · simp [hp]
  have hveq := validate_hmc_arguments_eq args hb
  have hfeq := validate_arguments_eq fargs hfthin
  refine ⟨?_, ?_, ?_⟩
  · rw [hveq]
    by_cases c1 : (!args.base.init.init_files.isEmpty
        && args.base.init.init_files.length != 1
        && args.base.init.init_files.length != args.base.num_chains) = true
    · have hno := (card_cond_true_iff _ _).mp c1
      rw [if_pos c1]
      constructor
      · intro h
        exact absurd h (by simp)
      · intro hcon
        exact absurd hcon.1 hno
    · have hyes : (args.base.init.init_files.length = 0
          ∨ args.base.init.init_files.length = 1
          ∨ args.base.init.init_files.length = args.base.num_chains) := by
        by_contra hcontra
        exact c1 ((card_cond_true_iff _ _).mpr hcontra)
      rw [if_neg c1]
      by_cases c2 : (!args.metric_files.isEmpty && args.metric_files.length != 1
          && args.metric_files.length != args.base.num_chains) = true
      · have hno2 := (card_cond_true_iff _ _).mp c2
        rw [if_pos c2]
        constructor
        · intro h
          exact absurd h (by simp)
        · intro hcon
          exact absurd hcon.2 hno2
      · have hyes2 : (args.metric_files.length = 0 ∨ args.metric_files.length = 1
            ∨ args.metric_files.length = args.base.num_chains) := by
          by_contra hcontra
          exact c2 ((card_cond_true_iff _ _).mpr hcontra)
        rw [if_neg c2]
        exact ⟨fun _ => ⟨hyes, hyes2⟩, fun _ => rfl⟩
  · rw [hfeq]
    by_cases c1 : (!fargs.init_files.isEmpty && fargs.init_files.length != 1
        && fargs.init_files.length != fargs.num_chains) = true
    · have hno := (card_cond_true_iff _ _).mp c1
      rw [if_pos c1]
      constructor
      · intro h
        exact absurd h (by simp)
      · intro hcon
        exact absurd hcon.1 hno
    · have hyes : (fargs.init_files.length = 0 ∨ fargs.init_files.length = 1
          ∨ fargs.init_files.length = fargs.num_chains) := by
        by_contra hcontra
        exact c1 ((card_cond_true_iff _ _).mpr hcontra)
      rw [if_neg c1]
      by_cases c2 : (!fargs.metric_files.isEmpty && fargs.metric_files.length != 1
          && fargs.metric_files.length != fargs.num_chains) = true
      · have hno2 := (card_cond_true_iff _ _).mp c2
        rw [if_pos c2]
        constructor
        · intro h
          exact absurd h (by simp)
        · intro hcon
          exact absurd hcon.2 hno2
      · have hyes2 : (fargs.metric_files.length = 0 ∨ fargs.metric_files.length = 1
            ∨ fargs.metric_files.length = fargs.num_chains) := by
          by_contra hcontra
          exact c2 ((card_cond_true_iff _ _).mpr hcontra)
        rw [if_neg c2]
        exact ⟨fun _ => ⟨hyes, hyes2⟩, fun _ => rfl⟩
  · intro hinit hmet
    have c1 : (!args.base.init.init_files.isEmpty
        && args.base.init.init_files.length != 1
        && args.base.init.init_files.length != args.base.num_chains) = false := by
      rw [Bool.eq_false_iff, Ne, card_cond_true_iff]
      exact not_not.mpr hinit
    have c2 : (!args.metric_files.isEmpty && args.metric_files.length != 1
        && args.metric_files.length != args.base.num_chains) = true :=
      (card_cond_true_iff _ _).mpr hmet
    have hval : arguments.validate_hmc_arguments args
        = (false, metric_error_msg args.base.num_chains args.metric_files.length) := by
      rw [hveq, c1, c2]
      simp
    refine ⟨by rw [hval], by rw [hval], ?_, ?_, ?_, ?_⟩
    · rw [hval]
      exact (metric_msg_mentioned _ _).1
    · rw [hval]
      exact (metric_msg_mentioned _ _).2.1
    · rw [hval]
      exact (metric_msg_mentioned _ _).2.2
    · simp [run_samplers_impl, hval]

/-- Witness for C2 (amended) at the Scenario B input: chain count 2,
metric list of length 3, empty init list. -/
theorem validate_cardinality_amended_witness :
    (arguments.validate_hmc_arguments
      { base := { num_chains := 2 }, metric_files := ["a", "b", "c"] }).1 = false
    ∧ mentions (arguments.validate_hmc_arguments
      { base := { num_chains := 2 }, metric_files := ["a", "b", "c"] }).2 ("metric")
    ∧ (run_samplers_impl (arguments.validate_hmc_arguments
      { base := { num_chains := 2 }, metric_files := ["a", "b", "c"] })
      (fun _ => (0, [Ev.openFile ("x")]))).2 = [] := by
  have h := (validate_cardinality_amended
      { base := { num_chains := 2 }, metric_files := ["a", "b", "c"] } {}
      (fun _ => (0, [Ev.openFile ("x")])) (by decide) (by decide)).2.2
      (by decide) (by decide)
  exact ⟨h.1, h.2.2.1, h.2.2.2.2.2⟩

/-- Length of a generated output filename in terms of its parts (the
seven components and the 8 fixed separator characters). -/
theorem generate_filename_length (model_name timestamp : String) (chain_id : Nat)
    (data_type extension : String) :
    (generate_filename model_name timestamp chain_id data_type extension).length
      = model_name.length + timestamp.length + (toString chain_id).length
        + data_type.length + extension.length + 8 := by
  have h1 : ("_" : String).length = 1 := rfl
  have h2 : ("_chain" : String).length = 6 := rfl
  simp [generate_filename, String.length_append]
  omega

/-- Two file paths in the same output directory built from filenames of
different lengths are different. -/
theorem create_file_path_length_ne (output_dir : String) {f1 f2 : String}
    (h : f1.length ≠ f2.length) :
    create_file_path output_dir f1 ≠ create_file_path output_dir f2 := by
  unfold create_file_path
  split
  · intro hEq
    exact h (congrArg String.length hEq)
  · intro hEq
    have hl := congrArg String.length hEq
    simp [String.length_append] at hl
    exact h (by omega)

/-- Writers of the same chain for content kinds whose kind-plus-extension
lengths differ write to different paths. -/
theorem create_writer_path_ne (output_dir model_name timestamp : String)
    (chain_id : Nat) {d1 e1 d2 e2 : String}
    (h : d1.length + e1.length ≠ d2.length + e2.length) :
    (create_writer output_dir model_name timestamp chain_id d1 e1).path
      ≠ (create_writer output_dir model_name timestamp chain_id d2 e2).path := by
  intro hEq
  have hne : (generate_filename model_name timestamp chain_id d1 e1).length
      ≠ (generate_filename model_name timestamp chain_id d2 e2).length := by
    rw [generate_filename_length, generate_filename_length]
    omega
  exact create_file_path_length_ne output_dir hne hEq

/-- Claim C8: For every chain writer set, the sample writer is always
constructed; each optional writer exists iff its save flag is set; when a
flag is unset the slot is null, the write target routed into the
chain-running code is the inert dummy writer, and no output file of that
kind is created; when a flag is set the routed target is the real writer
for that kind. -/
theorem output_writers_flag_iff (args : hmc_nuts_arguments.HmcNutsArgs)
    (model_name timestamp : String) (chain_id : Nat) :
    (create_hmc_nuts_single_chain_writers args model_name timestamp chain_id).1.sample_writer
      = some (create_writer args.output_dir model_name timestamp chain_id ("sample") (".csv"))
    ∧ (create_hmc_nuts_single_chain_writers args model_name timestamp chain_id).1.start_params_writer.isSome
      = args.save_start_params
    ∧ (create_hmc_nuts_single_chain_writers args model_name timestamp chain_id).1.diagnostics_writer.isSome
      = args.save_diagnostics
    ∧ (create_hmc_nuts_single_chain_writers args model_name timestamp chain_id).1.metric_writer.isSome
      = args.save_metric
    ∧ (args.save_metric = false →
        (create_hmc_nuts_single_chain_writers args model_name timestamp chain_id).1.metric_writer = none
        ∧ effective_metric_writer
            (create_hmc_nuts_single_chain_writers args model_name timestamp chain_id).1 = .dummy
        ∧ (create_writer args.output_dir model_name timestamp chain_id ("metric") (".json")).path
            ∉ (create_hmc_nuts_single_chain_writers args model_name timestamp chain_id).2)
    ∧ (args.save_diagnostics = false →
        (create_hmc_nuts_single_chain_writers args model_name timestamp chain_id).1.diagnostics_writer = none
        ∧ effective_diagnostic_writer
            (create_hmc_nuts_single_chain_writers args model_name timestamp chain_id).1 = .dummy
        ∧ (create_writer args.output_dir model_name timestamp chain_id ("param_grads") (".csv")).path
            ∉ (create_hmc_nuts_single_chain_writers args model_name timestamp chain_id).2)
    ∧ (args.save_start_params = false →
        (create_hmc_nuts_single_chain_writers args model_name timestamp chain_id).1.start_params_writer = none
        ∧ writer_to_use (init_writer_ptr
            (create_hmc_nuts_single_chain_writers args model_name timestamp chain_id).1) = .dummy
        ∧ (create_writer args.output_dir model_name timestamp chain_id ("start_params") (".csv")).path
            ∉ (create_hmc_nuts_single_chain_writers args model_name timestamp chain_id).2)
    ∧ (args.save_metric = true →
        effective_metric_writer
            (create_hmc_nuts_single_chain_writers args model_name timestamp chain_id).1
          = .real (create_writer args.output_dir model_name timestamp chain_id ("metric") (".json")))
    ∧ (args.save_diagnostics = true →
        effective_diagnostic_writer
            (create_hmc_nuts_single_chain_writers args model_name timestamp chain_id).1
          = .real (create_writer args.output_dir model_name timestamp chain_id ("param_grads") (".csv")))
    ∧ (args.save_start_params = true →
        writer_to_use (init_writer_ptr
            (create_hmc_nuts_single_chain_writers args model_name timestamp chain_id).1)
          = .real (create_writer args.output_dir model_name timestamp chain_id ("start_params") (".csv"))) := by
  have hms : (create_writer args.output_dir model_name timestamp chain_id ("metric") (".json")).path
      ≠ (create_writer args.output_dir model_name timestamp chain_id ("sample") (".csv")).path :=
    create_writer_path_ne _ _ _ _ (by decide)
  have hmsp : (create_writer args.output_dir model_name timestamp chain_id ("metric") (".json")).path
      ≠ (create_writer args.output_dir model_name timestamp chain_id ("start_params") (".csv")).path :=
    create_writer_path_ne _ _ _ _ (by decide)
  have hmd : (create_writer args.output_dir model_name timestamp chain_id ("metric") (".json")).path
      ≠ (create_writer args.output_dir model_name timestamp chain_id ("param_grads") (".csv")).path :=
    create_writer_path_ne _ _ _ _ (by decide)
  have hds : (create_writer args.output_dir model_name timestamp chain_id ("param_grads") (".csv")).path
      ≠ (create_writer args.output_dir model_name timestamp chain_id ("sample") (".csv")).path :=
    create_writer_path_ne _ _ _ _ (by decide)
  have hdsp : (create_writer args.output_dir model_name timestamp chain_id ("param_grads") (".csv")).path
      ≠ (create_writer args.output_dir model_name timestamp chain_id ("start_params") (".csv")).path :=
    create_writer_path_ne _ _ _ _ (by decide)
  have hdm : (create_writer args.output_dir model_name timestamp chain_id ("param_grads") (".csv")).path
      ≠ (create_writer args.output_dir model_name timestamp chain_id ("metric") (".json")).path :=
    create_writer_path_ne _ _ _ _ (by decide)
  have hsps : (create_writer args.output_dir model_name timestamp chain_id ("start_params") (".csv")).path
      ≠ (create_writer args.output_dir model_name timestamp chain_id ("sample") (".csv")).path :=
    create_writer_path_ne _ _ _ _ (by decide)
  have hspd : (create_writer args.output_dir model_name timestamp chain_id ("start_params") (".csv")).path
      ≠ (create_writer args.output_dir model_name timestamp chain_id ("param_grads") (".csv")).path :=
    create_writer_path_ne _ _ _ _ (by decide)
  have hspm : (create_writer args.output_dir model_name timestamp chain_id ("start_params") (".csv")).path
      ≠ (create_writer args.output_dir model_name timestamp chain_id ("metric") (".json")).path :=
    create_writer_path_ne _ _ _ _ (by decide)
  refine ⟨?_, ?_, ?_, ?_, ?_, ?_, ?_, ?_, ?_, ?_⟩
  · simp [create_hmc_nuts_single_chain_writers]
  · cases h : args.save_start_params <;>
      simp [create_hmc_nuts_single_chain_writers, h]
  · cases h : args.save_diagnostics <;>
      simp [create_hmc_nuts_single_chain_writers, h]
  · cases h : args.save_metric <;>
      simp [create_hmc_nuts_single_chain_writers, h]
  · intro h
    refine ⟨?_, ?_, ?_⟩
    · simp [create_hmc_nuts_single_chain_writers, h]
    · simp [create_hmc_nuts_single_chain_writers, h, effective_metric_writer]
    · cases hsp : args.save_start_params <;> cases hdg : args.save_diagnostics <;>
        simp [create_hmc_nuts_single_chain_writers, h, hsp, hdg, hms, hmsp, hmd]
  · intro h
    refine ⟨?_, ?_, ?_⟩
    · simp [create_hmc_nuts_single_chain_writers, h]
    · simp [create_hmc_nuts_single_chain_writers, h, effective_diagnostic_writer]
    · cases hsp : args.save_start_params <;> cases hme : args.save_metric <;>
        simp [create_hmc_nuts_single_chain_writers, h, hsp, hme, hds, hdsp, hdm]
  · intro h
    refine ⟨?_, ?_, ?_⟩
    · simp [create_hmc_nuts_single_chain_writers, h]
    · simp [create_hmc_nuts_single_chain_writers, h, writer_to_use, init_writer_ptr]
    · cases hdg : args.save_diagnostics <;> cases hme : args.save_metric <;>
        simp [create_hmc_nuts_single_chain_writers, h, hdg, hme, hsps, hspd, hspm]
  · intro h
    simp [create_hmc_nuts_single_chain_writers, h, effective_metric_writer]
  · intro h
    simp [create_hmc_nuts_single_chain_writers, h, effective_diagnostic_writer]
  · intro h
    simp [create_hmc_nuts_single_chain_writers, h, writer_to_use, init_writer_ptr]

/-- Witness for C8 at a concrete configuration with save_metric unset and
save_diagnostics set. -/
theorem output_writers_flag_iff_witness :
    (create_hmc_nuts_single_chain_writers { save_diagnostics := true } ("m") ("ts") 1).1.sample_writer
      = some (create_writer ("") ("m") ("ts") 1 ("sample") (".csv"))
    ∧ effective_metric_writer
        (create_hmc_nuts_single_chain_writers { save_diagnostics := true } ("m") ("ts") 1).1
      = .dummy
    ∧ effective_diagnostic_writer
        (create_hmc_nuts_single_chain_writers { save_diagnostics := true } ("m") ("ts") 1).1
      = .real (create_writer ("") ("m") ("ts") 1 ("param_grads") (".csv"))
    ∧ (create_writer ("") ("m") ("ts") 1 ("metric") (".json")).path
        ∉ (create_hmc_nuts_single_chain_writers { save_diagnostics := true } ("m") ("ts") 1).2 := by
  have h := output_writers_flag_iff { save_diagnostics := true } ("m") ("ts") 1
  exact ⟨h.1, (h.2.2.2.2.1 rfl).2.1, h.2.2.2.2.2.2.2.2.1 rfl, (h.2.2.2.2.1 rfl).2.2⟩

/-- File-open events contain only openFile entries. -/
theorem mem_open_events {e : Ev} {f : String} (h : e ∈ open_events f) :
    ∃ p, e = Ev.openFile p := by
  unfold open_events at h
  split at h
  · cases h
  · simp at h
    exact ⟨f, h⟩

/-- The writer-configuration phase emits only createFile events. -/
theorem create_all_writers_events_shape (args : hmc_nuts_arguments.HmcNutsArgs)
    (model_name timestamp : String) :
    ∀ e ∈ (create_all_writers args model_name timestamp).2,
      ∃ p, e = Ev.createFile p := by
  unfold create_all_writers
  split
  · intro e he
    obtain ⟨p, _, hp⟩ := List.mem_map.mp he
    exact ⟨p, hp.symm⟩
  · intro e he
    obtain ⟨p, _, hp⟩ := List.mem_map.mp he
    exact ⟨p, hp.symm⟩

/-- The writer-configuration phase creates the sample output file of
every chain. -/
theorem create_all_writers_sample_mem (args : hmc_nuts_arguments.HmcNutsArgs)
    (model_name timestamp : String) (i : Nat) (hi : i < args.num_chains) :
    Ev.createFile ((create_writer args.output_dir model_name timestamp (i + 1)
        ("sample") (".csv")).path)
      ∈ (create_all_writers args model_name timestamp).2 := by
  unfold create_all_writers
  split
  · next h1 =>
    have hi0 : i = 0 := by omega
    subst hi0
    simp [create_hmc_nuts_single_chain_writers]
  · apply List.mem_map_of_mem
    apply List.mem_flatten.mpr
    refine ⟨(create_hmc_nuts_single_chain_writers args model_name timestamp (i + 1)).2, ?_, ?_⟩
    · rw [List.map_map]
      exact List.mem_map_of_mem _ (List.mem_range.mpr hi)
    · simp [create_hmc_nuts_single_chain_writers]

/-- Claim C10: If the loaded model has no unconstrained parameters,
run_hmc returns success (0) without drawing initial parameters,
constructing any sampler, or running any sampling, although the
per-chain output writer files (in particular every chain sample file)
have already been created. -/
theorem run_hmc_no_params_early_return (ext : Externals)
    (args : hmc_nuts_arguments.HmcNutsArgs) (data_ctx : Ctx) (model : Model)
    (hdata : read_json_data ext.fs args.data_file = .ok data_ctx)
    (hmodel : ext.load_model data_ctx = .ok model)
    (hempty : model.uparam_names = []) :
    run_hmc ext args
      = (0, open_events args.data_file
            ++ (create_all_writers args model.model_name ext.timestamp).2)
    ∧ (∀ i, Ev.drawInitParams i ∉ (run_hmc ext args).2
        ∧ Ev.mkSampler i ∉ (run_hmc ext args).2
        ∧ Ev.runChain i ∉ (run_hmc ext args).2)
    ∧ (∀ i, i < args.num_chains →
        Ev.createFile ((create_writer args.output_dir model.model_name ext.timestamp
          (i + 1) ("sample") (".csv")).path) ∈ (run_hmc ext args).2) := by
  have hrun : run_hmc ext args = (0, open_events args.data_file
      ++ (create_all_writers args model.model_name ext.timestamp).2) := by
    simp [run_hmc, hdata, hmodel, hempty]
  refine ⟨hrun, ?_, ?_⟩
  · intro i
    have habs : ∀ e ∈ (run_hmc ext args).2,
        (∃ p, e = Ev.openFile p) ∨ (∃ p, e = Ev.createFile p) := by
      intro e he
      rw [hrun] at he
      rcases List.mem_append.mp he with h | h
      · exact Or.inl (mem_open_events h)
      · exact Or.inr (create_all_writers_events_shape args model.model_name ext.timestamp e h)
    refine ⟨?_, ?_, ?_⟩
    · intro hmem
      rcases habs _ hmem with ⟨p, hp⟩ | ⟨p, hp⟩ <;> cases hp
    · intro hmem
      rcases habs _ hmem with ⟨p, hp⟩ | ⟨p, hp⟩ <;> cases hp
    · intro hmem
      rcases habs _ hmem with ⟨p, hp⟩ | ⟨p, hp⟩ <;> cases hp
  · intro i hi
    rw [hrun]
    exact List.mem_append.mpr
      (Or.inr (create_all_writers_sample_mem args model.model_name ext.timestamp i hi))

/-- Witness for C10: a parameterless model, one chain, default
arguments; the run returns 0 having created exactly the chain-1 sample
file. -/
theorem run_hmc_no_params_early_return_witness :
    run_hmc ⟨⟨fun _ => true, fun _ => true, fun g => .ok (.json g)⟩,
        fun _ => .ok ⟨"m", [], 0⟩, "ts", true, []⟩
        ({} : hmc_nuts_arguments.HmcNutsArgs)
      = (0, [Ev.createFile ("m_ts_chain1_sample.csv")]) := by
  have h := run_hmc_no_params_early_return
    ⟨⟨fun _ => true, fun _ => true, fun g => .ok (.json g)⟩,
        fun _ => .ok ⟨"m", [], 0⟩, "ts", true, []⟩
    ({} : hmc_nuts_arguments.HmcNutsArgs) Ctx.empty ⟨"m", [], 0⟩ rfl rfl rfl
  rw [h.1]
  rfl

end Stan3
